import Mathlib

/-!
Verification development for the commute-optimizer repository
(src/api_structures.py, src/api_adapters.py, src/commute_optimizer.py).

The adapters are embedded over a small model of Python/JSON dynamic
values.  HTTP traffic is abstracted as an oracle outcome: either a
transport-level failure (a RequestException raised by requests.get) or
a response carrying a status code and an already-parsed JSON body.
Each adapter method returns its Python result inside Except (raised
exceptions become Except.error, returned values become Except.ok),
paired with the number of network requests the method attempted.
-/

/-- Model of a Python/JSON value as passed around by the adapters. -/
inductive PyVal where
  | num (q : ℚ)
  | str (s : String)
  | bool (b : Bool)
  | null
  | arr (xs : List PyVal)
  | obj (fs : List (String × PyVal))

/-- Python exception classes raised or caught in src/api_adapters.py. -/
inductive PyExc where
  | keyError
  | indexError
  | typeError
  | valueError
  | attributeError
  | notImplementedError
deriving DecidableEq

/-- Python truthiness of a value (bool(v)), as used by the source in
conditions such as `if data:` and `if data.get(...)`. -/
def pyTruthy : PyVal → Bool
  | PyVal.num q => if q = 0 then false else true
  | PyVal.str s => if s = ("") then false else true
  | PyVal.bool b => b
  | PyVal.null => false
  | PyVal.arr xs => if xs.isEmpty then false else true
  | PyVal.obj fs => if fs.isEmpty then false else true

/-- First binding of a key in a dict, Python None when absent. -/
def pyLookup : List (String × PyVal) → String → PyVal
  | [], _ => PyVal.null
  | p :: rest, k => if p.1 = k then p.2 else pyLookup rest k

/-- Whether a dict has a binding for a key. -/
def pyHasKey (fs : List (String × PyVal)) (k : String) : Bool :=
  fs.any (fun p => p.1 = k)

/-- Python dict.get(k): None when the key is absent; AttributeError when
the receiver is not a dict (no .get method). -/
def pyGet (v : PyVal) (k : String) : Except PyExc PyVal :=
  match v with
  | PyVal.obj fs => Except.ok (pyLookup fs k)
  | _ => Except.error PyExc.attributeError

/-- Python v[k] with a string key: KeyError when absent, TypeError when
the receiver is not a dict. -/
def pyKey (v : PyVal) (k : String) : Except PyExc PyVal :=
  match v with
  | PyVal.obj fs =>
    if pyHasKey fs k then Except.ok (pyLookup fs k)
    else Except.error PyExc.keyError
  | _ => Except.error PyExc.typeError

/-- Python v[i] with a non-negative integer index.  IndexError past the
end of a list, KeyError on a dict (integer keys never occur in these
responses), TypeError on other receivers.  (A string receiver would
yield a character in Python and then fail with TypeError one step later
in every use below; the model reports the TypeError at once.) -/
def pyIdx (v : PyVal) (i : Nat) : Except PyExc PyVal :=
  match v with
  | PyVal.arr xs =>
    match xs.get? i with
    | some x => Except.ok x
    | Option.none => Except.error PyExc.indexError
  | PyVal.obj _ => Except.error PyExc.keyError
  | _ => Except.error PyExc.typeError

/-- Python `k in v` for a string k: key containment on a dict,
TypeError on the other receivers that occur here. -/
def pyContains (v : PyVal) (k : String) : Except PyExc Bool :=
  match v with
  | PyVal.obj fs => Except.ok (pyHasKey fs k)
  | _ => Except.error PyExc.typeError

/-- Python `v == s` against a string literal: string equality when v is
a string, False for every other runtime type (Python equality across
types is False, it never raises). -/
def pyEqStr (v : PyVal) (s : String) : Bool :=
  match v with
  | PyVal.str s2 => s2 = s
  | _ => false

/-- Numeric value of a decimal digit character. -/
def digitVal (c : Char) : Nat := c.toNat - 48

/-- Natural number denoted by a list of decimal digits (0 for []). -/
def natFromDigits (cs : List Char) : Nat :=
  cs.foldl (fun n c => 10 * n + digitVal c) 0

/-- Split a character list at the dot characters. -/
def splitDotAux : List Char → List Char → List (List Char)
  | [], acc => [acc.reverse]
  | c :: rest, acc =>
    if c = ('.') then acc.reverse :: splitDotAux rest []
    else splitDotAux rest (c :: acc)

/-- Decimal forms accepted by Python float() that the geocoding backend
emits: digits with an optional fractional part. -/
def parseUnsignedDec (cs : List Char) : Option ℚ :=
  match splitDotAux cs [] with
  | [w] =>
    if w.isEmpty then Option.none
    else if w.all Char.isDigit then some ((natFromDigits w : ℚ))
    else Option.none
  | [w, f] =>
    if w.isEmpty && f.isEmpty then Option.none
    else if w.all Char.isDigit && f.all Char.isDigit then
      some ((natFromDigits w : ℚ) +
        (natFromDigits f : ℚ) / (10 : ℚ) ^ f.length)
    else Option.none
  | _ => Option.none

/-- Signed decimal string, as accepted by Python float() on the string
forms these backends emit. -/
def parseDecimal (s : String) : Option ℚ :=
  match s.data with
  | c :: rest =>
    if c = ('-') then (parseUnsignedDec rest).map (fun q => -q)
    else if c = ('+') then parseUnsignedDec rest
    else parseUnsignedDec (c :: rest)
  | [] => Option.none

/-- Python float(v): identity on numbers, numeric parsing on strings
(ValueError on failure), 0/1 on bools, TypeError otherwise. -/
def pyFloat (v : PyVal) : Except PyExc ℚ :=
  match v with
  | PyVal.num q => Except.ok q
  | PyVal.bool b => Except.ok (if b then 1 else 0)
  | PyVal.str s =>
    match parseDecimal s with
    | some q => Except.ok q
    | Option.none => Except.error PyExc.valueError
  | _ => Except.error PyExc.typeError

/-- Coordinates (src/api_structures.py lines 7-11).  A Python dataclass
performs no runtime type check, so the fields hold whatever value the
constructing adapter passed; a field is a plain float exactly when it
is a PyVal.num. -/
structure Coordinates where
  lat : PyVal
  lon : PyVal

/-- RouteInfo as constructed by the adapters (src/api_adapters.py
lines 181 and 269) and consumed by the optimizer.  Modelled from the
spec: the RouteInfo revision present in src/api_structures.py
(lines 14-17) omits traffic_data_included, while the adapters and the
optimizer in src require it; the spec fixes the flag as part of the
canonical contract.  Claim C1 records the discrepancy. -/
structure RouteInfo where
  travel_time_sec : PyVal
  traffic_data_included : Bool

/-- Field names of the RouteInfo dataclass as declared in
src/api_structures.py lines 14-17 (the revision without the flag). -/
def routeInfoSrcFields : List String := ["travel_time_sec"]

/-- Keyword arguments supplied to the RouteInfo(...) constructor calls
at src/api_adapters.py line 181 (TomTom) and line 269 (Google). -/
def adapterRouteInfoCallKwargs : List String :=
  ["travel_time_sec", "traffic_data_included"]

/-- A Python dataclass __init__ accepts a keyword call exactly when
every keyword names a declared field and every (default-free) field is
supplied; an unknown keyword raises TypeError. -/
def dataclassInitAccepts (fields kwargs : List String) : Bool :=
  kwargs.all (fun k => fields.contains k) &&
    fields.all (fun f => kwargs.contains f)

/-- Outcome of one requests.get call: a raised RequestException
(connection failure, timeout), or an HTTP response with a status code
and a parsed JSON body. -/
inductive HttpOutcome where
  | transportError
  | response (status : Nat) (body : PyVal)

/-- The except (KeyError, IndexError) clause wrapped around response
parsing in every adapter: those two exceptions are absorbed into the
returned-None outcome, everything else propagates. -/
def catchKeyIndex {α : Type} (r : Except PyExc (Option α)) :
    Except PyExc (Option α) :=
  match r with
  | Except.error PyExc.keyError => Except.ok Option.none
  | Except.error PyExc.indexError => Except.ok Option.none
  | other => other

namespace GeocodeCoAdapter

/-- Body parsing of GeocodeCoAdapter.get_coordinates
(src/api_adapters.py lines 65-80): first hit of the result list, float()
conversion of its lat/lon fields, KeyError/IndexError absorbed. -/
def parseBody (body : PyVal) : Except PyExc (Option Coordinates) :=
  if pyTruthy body then
    catchKeyIndex (
      match pyIdx body 0 with
      | Except.error e => Except.error e
      | Except.ok location =>
        match pyKey location ("lat") with
        | Except.error e => Except.error e
        | Except.ok latRaw =>
          match pyFloat latRaw with
          | Except.error e => Except.error e
          | Except.ok la =>
            match pyKey location ("lon") with
            | Except.error e => Except.error e
            | Except.ok lonRaw =>
              match pyFloat lonRaw with
              | Except.error e => Except.error e
              | Except.ok lo =>
                Except.ok (some (Coordinates.mk (PyVal.num la) (PyVal.num lo))))
  else Except.ok Option.none

/-- GeocodeCoAdapter.get_coordinates (src/api_adapters.py lines 47-80).
One requests.get call; a RequestException (including the HTTPError from
raise_for_status on a 4xx/5xx status) and the explicit 429 check all
yield the returned-None outcome. -/
def get_coordinates (o : HttpOutcome) :
    Except PyExc (Option Coordinates) × Nat :=
  let result : Except PyExc (Option Coordinates) :=
    match o with
    | HttpOutcome.transportError => Except.ok Option.none
    | HttpOutcome.response status body =>
      if status = 429 then Except.ok Option.none
      else if 400 ≤ status then Except.ok Option.none
      else parseBody body
  (result, 1)

/-- GeocodeCoAdapter.get_route (src/api_adapters.py lines 82-85):
raises NotImplementedError unconditionally, before any network
activity, so the request count is 0. -/
def get_route (s e : Coordinates) (t : ℤ) :
    Except PyExc (Option RouteInfo) × Nat :=
  (Except.error PyExc.notImplementedError, 0)

end GeocodeCoAdapter

namespace TomTomAdapter

/-- TomTomAdapter.get_coordinates (src/api_adapters.py lines 131-159).
The position lat/lon values are passed to Coordinates verbatim, with no
float() conversion. -/
def get_coordinates (o : HttpOutcome) :
    Except PyExc (Option Coordinates) × Nat :=
  let result : Except PyExc (Option Coordinates) :=
    match o with
    | HttpOutcome.transportError => Except.ok Option.none
    | HttpOutcome.response status body =>
      if 400 ≤ status then Except.ok Option.none
      else if pyTruthy body then
        match pyGet body ("results") with
        | Except.error e => Except.error e
        | Except.ok res =>
          if pyTruthy res then
            catchKeyIndex (
              (pyKey body ("results")).bind (fun results =>
              (pyIdx results 0).bind (fun r0 =>
              (pyKey r0 ("position")).bind (fun position =>
              (pyKey position ("lat")).bind (fun latV =>
              (pyKey position ("lon")).map (fun lonV =>
                some (Coordinates.mk latV lonV)))))))
          else Except.ok Option.none
      else Except.ok Option.none
  (result, 1)

/-- TomTomAdapter.get_route (src/api_adapters.py lines 161-191).  On a
parsed response the summary value travelTimeInSeconds is taken verbatim
and traffic_data_included is the literal True (the request always sets
the traffic parameter). -/
def get_route (s e : Coordinates) (t : ℤ) (o : HttpOutcome) :
    Except PyExc (Option RouteInfo) × Nat :=
  let result : Except PyExc (Option RouteInfo) :=
    match o with
    | HttpOutcome.transportError => Except.ok Option.none
    | HttpOutcome.response status body =>
      if 400 ≤ status then Except.ok Option.none
      else
        catchKeyIndex (
          (pyKey body ("routes")).bind (fun routes =>
          (pyIdx routes 0).bind (fun r0 =>
          (pyKey r0 ("summary")).bind (fun summary =>
          (pyKey summary ("travelTimeInSeconds")).map (fun ts =>
            some (RouteInfo.mk ts true))))))
  (result, 1)

end TomTomAdapter

namespace GoogleMapsAdapter

/-- GoogleMapsAdapter.get_coordinates (src/api_adapters.py
lines 205-234).  Success requires status OK and a truthy results list;
the location lat/lng values are passed to Coordinates verbatim. -/
def get_coordinates (o : HttpOutcome) :
    Except PyExc (Option Coordinates) × Nat :=
  let result : Except PyExc (Option Coordinates) :=
    match o with
    | HttpOutcome.transportError => Except.ok Option.none
    | HttpOutcome.response status body =>
      if 400 ≤ status then Except.ok Option.none
      else
        match pyGet body ("status") with
        | Except.error e => Except.error e
        | Except.ok st =>
          if pyEqStr st ("OK") then
            match pyGet body ("results") with
            | Except.error e => Except.error e
            | Except.ok res =>
              if pyTruthy res then
                catchKeyIndex (
                  (pyKey body ("results")).bind (fun results =>
                  (pyIdx results 0).bind (fun r0 =>
                  (pyKey r0 ("geometry")).bind (fun geometry =>
                  (pyKey geometry ("location")).bind (fun location =>
                  (pyKey location ("lat")).bind (fun latV =>
                  (pyKey location ("lng")).map (fun lonV =>
                    some (Coordinates.mk latV lonV))))))))
              else Except.ok Option.none
          else Except.ok Option.none
  (result, 1)

/-- GoogleMapsAdapter.get_route (src/api_adapters.py lines 236-284).
duration_in_traffic is preferred when the leg contains it, setting
traffic_data_included to True; otherwise the plain duration is used
with the flag False. -/
def get_route (s e : Coordinates) (t : ℤ) (o : HttpOutcome) :
    Except PyExc (Option RouteInfo) × Nat :=
  let result : Except PyExc (Option RouteInfo) :=
    match o with
    | HttpOutcome.transportError => Except.ok Option.none
    | HttpOutcome.response status body =>
      if 400 ≤ status then Except.ok Option.none
      else
        match pyGet body ("status") with
        | Except.error e => Except.error e
        | Except.ok st =>
          if pyEqStr st ("OK") then
            match pyGet body ("routes") with
            | Except.error e => Except.error e
            | Except.ok rts =>
              if pyTruthy rts then
                catchKeyIndex (
                  (pyKey body ("routes")).bind (fun routes =>
                  (pyIdx routes 0).bind (fun r0 =>
                  (pyKey r0 ("legs")).bind (fun legs =>
                  (pyIdx legs 0).bind (fun leg =>
                  (pyContains leg ("duration_in_traffic")).bind (fun hasTr =>
                    if hasTr then
                      (pyKey leg ("duration_in_traffic")).bind (fun dit =>
                      (pyKey dit ("value")).map (fun tv =>
                        some (RouteInfo.mk tv true)))
                    else
                      (pyKey leg ("duration")).bind (fun dur =>
                      (pyKey dur ("value")).map (fun dv =>
                        some (RouteInfo.mk dv false)))))))))
              else Except.ok Option.none
          else Except.ok Option.none
  (result, 1)

end GoogleMapsAdapter

namespace FallbackGeocoderAdapter

/-- One call made by the composite on one of its two wrapped adapters,
for geocoding. -/
inductive GeoCall where
  | primary (address : String)
  | fallback (address : String)
deriving DecidableEq

/-- One call made by the composite on one of its two wrapped adapters,
for routing. -/
inductive RouteDelegCall where
  | primary (s e : Coordinates) (t : ℤ)
  | fallback (s e : Coordinates) (t : ℤ)

/-- FallbackGeocoderAdapter.get_coordinates (src/api_adapters.py
lines 99-110), over the two wrapped adapters viewed at the contract
level (address to Coordinates-or-None).  A Coordinates dataclass
instance is always truthy, so `if coords:` distinguishes exactly
some from None.  The second component logs the delegate calls in
order. -/
def get_coordinates (primary_geocoder fallback_adapter : String → Option Coordinates)
    (address : String) : Option Coordinates × List GeoCall :=
  match primary_geocoder address with
  | some c => (some c, [GeoCall.primary address])
  | Option.none =>
    (fallback_adapter address, [GeoCall.primary address, GeoCall.fallback address])

/-- FallbackGeocoderAdapter.get_route (src/api_adapters.py
lines 112-117): unconditional delegation to the fallback adapter. -/
def get_route (primary_geocoder fallback_adapter : Coordinates → Coordinates → ℤ → Option RouteInfo)
    (s e : Coordinates) (t : ℤ) : Option RouteInfo × List RouteDelegCall :=
  (fallback_adapter s e t, [RouteDelegCall.fallback s e t])

end FallbackGeocoderAdapter

/-- RouteInfo as seen by the scenario scanner through the adapter
contract (spec section 4.3): an integer number of seconds and the
traffic flag.  The scanner never inspects raw backend values, so its
oracle is typed at the normalized contract. -/
structure RouteInfoNorm where
  travel_time_sec : ℤ
  traffic_data_included : Bool

namespace commute_optimizer

/-- One scenario record, with the keys of the dict appended at
src/commute_optimizer.py lines 101-110.  Instants are modelled as
seconds relative to midnight of the analysis date in the configured
timezone. -/
structure Scenario where
  leave_home : ℤ
  morning_travel_sec : ℤ
  morning_traffic_ok : Bool
  arrive_work : ℤ
  leave_work : ℤ
  evening_travel_sec : ℤ
  evening_traffic_ok : Bool
  total_commute_sec : ℤ

/-- One get_route invocation issued by the scanner. -/
structure RouteCall where
  origin : Coordinates
  dest : Coordinates
  depart : ℤ

/-- The while loop head of src/commute_optimizer.py line 70: departure
instants from start while not past endT, stepping by the fixed
increment.  Fuel bounds the unfolding; with the source constants the
condition fails before the fuel does. -/
def gridTimes (start endT step : ℤ) : Nat → List ℤ
  | 0 => []
  | Nat.succ fuel =>
    if start ≤ endT then start :: gridTimes (start + step) endT step fuel
    else []

/-- The fixed candidate grid of src/commute_optimizer.py lines 56-63:
6:00 to 10:00 in 30-minute steps. -/
def timeGrid : List ℤ := gridTimes (6 * 3600) (10 * 3600) (30 * 60) 16

/-- The grid evaluates to the nine departures 6:00, 6:30, ..., 10:00,
so 16 units of fuel are more than the loop consumes. -/
theorem timeGrid_eq :
    timeGrid = [21600, 23400, 25200, 27000, 28800, 30600, 32400,
                34200, 36000] := by
  decide

/-- Loop body of analyze_commute_scenarios (src/commute_optimizer.py
lines 70-113), for a fixed route oracle, geocoded endpoints and lunch
length, over the list of remaining candidate departures.  Returns the
get_route call log and the scenario list, both in issue order. -/
def scanLoop (route : Coordinates → Coordinates → ℤ → Option RouteInfoNorm)
    (hc wc : Coordinates) (lunch_minutes : ℤ) :
    List ℤ → List RouteCall × List Scenario
  | [] => ([], [])
  | t :: ts =>
    match route hc wc t with
    | Option.none =>
      let r := scanLoop route hc wc lunch_minutes ts
      (RouteCall.mk hc wc t :: r.1, r.2)
    | some mi =>
      let arrive := t + mi.travel_time_sec
      let leaveWork := arrive + (8 * 3600 + lunch_minutes * 60)
      match route wc hc leaveWork with
      | Option.none =>
        let r := scanLoop route hc wc lunch_minutes ts
        (RouteCall.mk hc wc t :: RouteCall.mk wc hc leaveWork :: r.1, r.2)
      | some ei =>
        let r := scanLoop route hc wc lunch_minutes ts
        (RouteCall.mk hc wc t :: RouteCall.mk wc hc leaveWork :: r.1,
         Scenario.mk t mi.travel_time_sec mi.traffic_data_included arrive
           leaveWork ei.travel_time_sec ei.traffic_data_included
           (mi.travel_time_sec + ei.travel_time_sec) :: r.2)

/-- analyze_commute_scenarios (src/commute_optimizer.py lines 36-114):
geocodes both endpoints (in source order, home first), returns the
empty scenario list when either fails, otherwise runs the grid scan.
The first component logs the geocode calls, the second the route
calls. -/
def analyze_commute_scenarios (geocode : String → Option Coordinates)
    (route : Coordinates → Coordinates → ℤ → Option RouteInfoNorm)
    (home_address work_address : String) (lunch_minutes : ℤ) :
    List String × List RouteCall × List Scenario :=
  let home_coords := geocode home_address
  let work_coords := geocode work_address
  match home_coords, work_coords with
  | some hc, some wc =>
    let s := scanLoop route hc wc lunch_minutes timeGrid
    ([home_address, work_address], s.1, s.2)
  | _, _ => ([home_address, work_address], [], [])

/-- The get_route calls one candidate departure gives rise to: the
morning leg always, the evening leg only once the morning leg
succeeded. -/
def candidateCalls (route : Coordinates → Coordinates → ℤ → Option RouteInfoNorm)
    (hc wc : Coordinates) (lunch_minutes : ℤ) (t : ℤ) : List RouteCall :=
  match route hc wc t with
  | Option.none => [RouteCall.mk hc wc t]
  | some mi =>
    [RouteCall.mk hc wc t,
     RouteCall.mk wc hc (t + mi.travel_time_sec + (8 * 3600 + lunch_minutes * 60))]

/-- The scenario record one candidate departure contributes: a complete
record when both legs succeed, nothing otherwise. -/
def candidateRecord (route : Coordinates → Coordinates → ℤ → Option RouteInfoNorm)
    (hc wc : Coordinates) (lunch_minutes : ℤ) (t : ℤ) : Option Scenario :=
  match route hc wc t with
  | Option.none => Option.none
  | some mi =>
    let arrive := t + mi.travel_time_sec
    let leaveWork := arrive + (8 * 3600 + lunch_minutes * 60)
    match route wc hc leaveWork with
    | Option.none => Option.none
    | some ei =>
      some (Scenario.mk t mi.travel_time_sec mi.traffic_data_included arrive
        leaveWork ei.travel_time_sec ei.traffic_data_included
        (mi.travel_time_sec + ei.travel_time_sec))

/-- Concatenation of the per-candidate call lists over a grid. -/
def scanCalls (route : Coordinates → Coordinates → ℤ → Option RouteInfoNorm)
    (hc wc : Coordinates) (lunch_minutes : ℤ) : List ℤ → List RouteCall
  | [] => []
  | t :: ts =>
    candidateCalls route hc wc lunch_minutes t ++
      scanCalls route hc wc lunch_minutes ts

/-- The loop is, per candidate, exactly the morning-then-evening call
pattern and the all-or-nothing record contribution: its call log is the
concatenation of the per-candidate calls and its scenario list is the
filterMap of the per-candidate records. -/
theorem scanLoop_spec (route : Coordinates → Coordinates → ℤ → Option RouteInfoNorm)
    (hc wc : Coordinates) (lunch_minutes : ℤ) :
    ∀ ts : List ℤ, scanLoop route hc wc lunch_minutes ts =
      (scanCalls route hc wc lunch_minutes ts,
       ts.filterMap (candidateRecord route hc wc lunch_minutes))
  | [] => rfl
  | t :: ts => by
    have ih := scanLoop_spec route hc wc lunch_minutes ts
    simp only [scanLoop, scanCalls, candidateCalls, candidateRecord,
      List.filterMap_cons]
    cases hm : route hc wc t with
    | none => simp [ih]
    | some mi =>
      cases he : route wc hc (t + mi.travel_time_sec + (8 * 3600 + lunch_minutes * 60)) with
      | none => norm_num at he; simp [ih, he]
      | some ei => norm_num at he; simp [ih, he]

end commute_optimizer

/-!
Claims.  Each claim of the specification is settled by exactly one
theorem below; witnesses instantiate the hypothesis-bearing ones on
concrete inputs.
-/

/-- Claim C1 (the code contradicts it): the claim says the normalized
RouteInfo value type carries a traffic_data_included boolean and that
every successful TomTom/Google route normalization sets it.  The
RouteInfo dataclass declared in src/api_structures.py lines 14-17
accepts only the travel_time_sec keyword, so the constructor call the
TomTom and Google adapters actually make (src/api_adapters.py
lines 181 and 269), which also passes traffic_data_included, is
rejected with a TypeError, while the flag-free call the spec rules out
is the only accepted one. -/
theorem routeinfo_src_rejects_adapter_call :
    dataclassInitAccepts routeInfoSrcFields adapterRouteInfoCallKwargs = false
    ∧ dataclassInitAccepts routeInfoSrcFields ["travel_time_sec"] = true := by
  decide

/-- Claim C2: the fallback composite geocode calls the primary first;
when the primary succeeds it returns the primary result and never
invokes the fallback; when the primary fails it invokes the fallback
exactly once and returns its result verbatim, success or failure, with
no further retry.  The call log is exact, so it also shows the order
and the absence of retries. -/
theorem fallback_geocode_policy (p f : String → Option Coordinates) (a : String) :
    (∀ c, p a = some c →
      FallbackGeocoderAdapter.get_coordinates p f a =
        (some c, [FallbackGeocoderAdapter.GeoCall.primary a]))
    ∧ (p a = Option.none →
      FallbackGeocoderAdapter.get_coordinates p f a =
        (f a, [FallbackGeocoderAdapter.GeoCall.primary a,
               FallbackGeocoderAdapter.GeoCall.fallback a])) := by
  constructor
  · intro c hc
    simp [FallbackGeocoderAdapter.get_coordinates, hc]
  · intro hn
    simp [FallbackGeocoderAdapter.get_coordinates, hn]

/-- Test double: a primary geocoder that succeeds on one address and
fails on every other. -/
def primaryDouble : String → Option Coordinates :=
  fun a =>
    if a = ("ok addr") then some (Coordinates.mk (PyVal.num 1) (PyVal.num 2))
    else Option.none

/-- Test double: a fallback geocoder that always succeeds. -/
def fallbackDouble : String → Option Coordinates :=
  fun _ => some (Coordinates.mk (PyVal.num 3) (PyVal.num 4))

/-- Witness for C2 at the two doubles: one address the primary
resolves, one it does not. -/
theorem fallback_geocode_policy_witness :
    FallbackGeocoderAdapter.get_coordinates primaryDouble fallbackDouble ("ok addr")
      = (some (Coordinates.mk (PyVal.num 1) (PyVal.num 2)),
         [FallbackGeocoderAdapter.GeoCall.primary ("ok addr")])
    ∧ FallbackGeocoderAdapter.get_coordinates primaryDouble fallbackDouble ("bad addr")
      = (some (Coordinates.mk (PyVal.num 3) (PyVal.num 4)),
         [FallbackGeocoderAdapter.GeoCall.primary ("bad addr"),
          FallbackGeocoderAdapter.GeoCall.fallback ("bad addr")]) :=
  ⟨(fallback_geocode_policy primaryDouble fallbackDouble ("ok addr")).1 _ rfl,
   (fallback_geocode_policy primaryDouble fallbackDouble ("bad addr")).2 rfl⟩

/-- Claim C3: the fallback composite route operation delegates directly
to the fallback adapter for every input and never invokes the primary:
its result is the fallback result unchanged and its delegate-call log
is exactly one fallback call. -/
theorem fallback_route_delegation
    (p f : Coordinates → Coordinates → ℤ → Option RouteInfo)
    (s e : Coordinates) (t : ℤ) :
    FallbackGeocoderAdapter.get_route p f s e t =
      (f s e t, [FallbackGeocoderAdapter.RouteDelegCall.fallback s e t]) := rfl

/-- Claim C4: the geocoding-only adapter route operation raises
NotImplementedError for every input with zero network requests
attempted.  The outcome is a raised exception (Except.error), not the
returned-None value (Except.ok Option.none) in which transient per-call
failures are absorbed, so it is not silently swallowed the way those
are. -/
theorem geocodeco_route_capability_unsupported (s e : Coordinates) (t : ℤ) :
    GeocodeCoAdapter.get_route s e t =
      (Except.error PyExc.notImplementedError, 0) := rfl

/-- Claim C5: for each backend adapter, a well-formed response with
zero matches produces the returned-None outcome (Except.ok
Option.none), never a raised error, whatever the HTTP status: an empty
result list for Geocode.co, an empty results list for TomTom, and for
Google either a ZERO_RESULTS status or an OK status with an empty
results list. -/
theorem adapters_zero_matches_no_result :
    (∀ status : Nat,
      GeocodeCoAdapter.get_coordinates (HttpOutcome.response status (PyVal.arr []))
        = (Except.ok Option.none, 1))
    ∧ (∀ status : Nat,
      TomTomAdapter.get_coordinates
          (HttpOutcome.response status (PyVal.obj [(("results"), PyVal.arr [])]))
        = (Except.ok Option.none, 1))
    ∧ (∀ status : Nat,
      GoogleMapsAdapter.get_coordinates
          (HttpOutcome.response status
            (PyVal.obj [(("status"), PyVal.str ("ZERO_RESULTS")),
                        (("results"), PyVal.arr [])]))
        = (Except.ok Option.none, 1))
    ∧ (∀ status : Nat,
      GoogleMapsAdapter.get_coordinates
          (HttpOutcome.response status
            (PyVal.obj [(("status"), PyVal.str ("OK")),
                        (("results"), PyVal.arr [])]))
        = (Except.ok Option.none, 1)) := by
  refine ⟨?_, ?_, ?_, ?_⟩ <;> intro status <;>
    simp [GeocodeCoAdapter.get_coordinates, GeocodeCoAdapter.parseBody,
      TomTomAdapter.get_coordinates, GoogleMapsAdapter.get_coordinates,
      pyTruthy, pyGet, pyLookup, pyEqStr]

/-- catchKeyIndex only ever absorbs into a returned None, so a
some-result must come from the wrapped computation unchanged. -/
theorem catchKeyIndex_ok_some {α : Type} (r : Except PyExc (Option α)) (a : α)
    (h : catchKeyIndex r = Except.ok (some a)) : r = Except.ok (some a) := by
  cases r with
  | ok v => exact h
  | error e => cases e <;> simpa [catchKeyIndex] using h

/-- Any Coordinates the Geocode.co parser returns has both fields built
by PyVal.num applied to the float() results, whatever the body held. -/
theorem geocodeco_parse_success_floats (body : PyVal) (c : Coordinates)
    (h : GeocodeCoAdapter.parseBody body = Except.ok (some c)) :
    (∃ qa, c.lat = PyVal.num qa) ∧ (∃ qb, c.lon = PyVal.num qb) := by
  unfold GeocodeCoAdapter.parseBody at h
  by_cases hb : pyTruthy body
  · rw [if_pos hb] at h
    have h2 := catchKeyIndex_ok_some _ _ h
    split at h2
    · simp at h2
    · split at h2
      · simp at h2
      · split at h2
        · simp at h2
        · split at h2
          · simp at h2
          · split at h2
            · simp at h2
            · simp only [Except.ok.injEq, Option.some.injEq] at h2
              subst h2
              exact ⟨⟨_, rfl⟩, ⟨_, rfl⟩⟩
  · rw [if_neg hb] at h
    simp at h

/-- A well-formed TomTom geocoding success body (spec section 6,
Backend A): a results list whose first entry has a position object with
numeric lat/lon. -/
def tomtomGeoBody (qa qb : ℚ) : PyVal :=
  PyVal.obj [(("results"),
    PyVal.arr [PyVal.obj [(("position"),
      PyVal.obj [(("lat"), PyVal.num qa), (("lon"), PyVal.num qb)])]])]

/-- A well-formed Google geocoding success body (spec section 6,
Backend B): OK status and a results list whose first entry nests
geometry/location with numeric lat/lng. -/
def googleGeoBody (qa qb : ℚ) : PyVal :=
  PyVal.obj [(("status"), PyVal.str ("OK")),
    (("results"), PyVal.arr [PyVal.obj [(("geometry"),
      PyVal.obj [(("location"),
        PyVal.obj [(("lat"), PyVal.num qa), (("lng"), PyVal.num qb)])])]])]

/-- Claim C6: every successful geocoding normalization yields a
Coordinates value whose fields are plain numbers.  For Geocode.co this
holds for every response body, string-encoded coordinates included,
because the adapter applies float(); for TomTom and Google, whose
backends encode coordinates as numbers, any well-formed success body
with numeric fields is passed through to a numeric Coordinates
value. -/
theorem coordinates_normalized_to_floats :
    (∀ (o : HttpOutcome) (c : Coordinates),
      (GeocodeCoAdapter.get_coordinates o).1 = Except.ok (some c) →
      (∃ qa, c.lat = PyVal.num qa) ∧ (∃ qb, c.lon = PyVal.num qb))
    ∧ (∀ (qa qb : ℚ) (status : Nat), status < 400 →
      TomTomAdapter.get_coordinates (HttpOutcome.response status (tomtomGeoBody qa qb))
        = (Except.ok (some (Coordinates.mk (PyVal.num qa) (PyVal.num qb))), 1))
    ∧ (∀ (qa qb : ℚ) (status : Nat), status < 400 →
      GoogleMapsAdapter.get_coordinates (HttpOutcome.response status (googleGeoBody qa qb))
        = (Except.ok (some (Coordinates.mk (PyVal.num qa) (PyVal.num qb))), 1)) := by
  refine ⟨?_, ?_, ?_⟩
  · intro o c h
    cases o with
    | transportError => simp [GeocodeCoAdapter.get_coordinates] at h
    | response status body =>
      unfold GeocodeCoAdapter.get_coordinates at h
      by_cases h429 : status = 429 <;> simp [h429] at h
      by_cases h400 : 400 ≤ status <;> simp [h400] at h
      exact geocodeco_parse_success_floats body c h
  · intro qa qb status h
    have hn : ¬ 400 ≤ status := by omega
    show (if 400 ≤ status then Except.ok Option.none else _, 1) = _
    rw [if_neg hn]
    rfl
  · intro qa qb status h
    have hn : ¬ 400 ≤ status := by omega
    show (if 400 ≤ status then Except.ok Option.none else _, 1) = _
    rw [if_neg hn]
    rfl

/-- Witness for C6: Geocode.co normalizes string-encoded coordinates
("34.5", "-118.25") to numbers, and TomTom and Google pass numeric
coordinates through, at status 200. -/
theorem coordinates_normalized_to_floats_witness :
    (GeocodeCoAdapter.get_coordinates (HttpOutcome.response 200
        (PyVal.arr [PyVal.obj [(("lat"), PyVal.str ("34.5")),
                               (("lon"), PyVal.str ("-118.25"))]]))).1
      = Except.ok (some (Coordinates.mk (PyVal.num ((69 : ℚ) / 2))
          (PyVal.num (-((473 : ℚ) / 4)))))
    ∧ ((∃ qa, (Coordinates.mk (PyVal.num ((69 : ℚ) / 2))
          (PyVal.num (-((473 : ℚ) / 4)))).lat = PyVal.num qa)
       ∧ (∃ qb, (Coordinates.mk (PyVal.num ((69 : ℚ) / 2))
          (PyVal.num (-((473 : ℚ) / 4)))).lon = PyVal.num qb))
    ∧ TomTomAdapter.get_coordinates (HttpOutcome.response 200 (tomtomGeoBody 1 2))
        = (Except.ok (some (Coordinates.mk (PyVal.num 1) (PyVal.num 2))), 1)
    ∧ GoogleMapsAdapter.get_coordinates (HttpOutcome.response 200 (googleGeoBody 3 4))
        = (Except.ok (some (Coordinates.mk (PyVal.num 3) (PyVal.num 4))), 1) := by
  have hq1 : ((natFromDigits (['3', '4']) : ℚ) +
      (natFromDigits (['5']) : ℚ) / (10 : ℚ) ^ (1 : ℕ)) = (69 : ℚ) / 2 := by
    rw [show natFromDigits (['3', '4']) = 34 from rfl,
      show natFromDigits (['5']) = 5 from rfl]
    norm_num
  have hq2 : (-((natFromDigits (['1', '1', '8']) : ℚ) +
      (natFromDigits (['2', '5']) : ℚ) / (10 : ℚ) ^ (2 : ℕ))) = -((473 : ℚ) / 4) := by
    rw [show natFromDigits (['1', '1', '8']) = 118 from rfl,
      show natFromDigits (['2', '5']) = 25 from rfl]
    norm_num
  have heval : (GeocodeCoAdapter.get_coordinates (HttpOutcome.response 200
      (PyVal.arr [PyVal.obj [(("lat"), PyVal.str ("34.5")),
                             (("lon"), PyVal.str ("-118.25"))]]))).1
      = Except.ok (some (Coordinates.mk (PyVal.num ((69 : ℚ) / 2))
          (PyVal.num (-((473 : ℚ) / 4))))) := by
    rw [show (GeocodeCoAdapter.get_coordinates (HttpOutcome.response 200
        (PyVal.arr [PyVal.obj [(("lat"), PyVal.str ("34.5")),
                               (("lon"), PyVal.str ("-118.25"))]]))).1
        = Except.ok (some (Coordinates.mk
            (PyVal.num ((natFromDigits (['3', '4']) : ℚ) +
              (natFromDigits (['5']) : ℚ) / (10 : ℚ) ^ (1 : ℕ)))
            (PyVal.num (-((natFromDigits (['1', '1', '8']) : ℚ) +
              (natFromDigits (['2', '5']) : ℚ) / (10 : ℚ) ^ (2 : ℕ)))))) from rfl,
      hq1, hq2]
  exact ⟨heval, coordinates_normalized_to_floats.1 _ _ heval,
    coordinates_normalized_to_floats.2.1 1 2 200 (by omega),
    coordinates_normalized_to_floats.2.2 3 4 200 (by omega)⟩

/-- A Google directions success body (spec section 6, Backend B) around
a given leg object: OK status and a routes list whose first entry holds
the leg. -/
def googleRouteBody (leg : PyVal) : PyVal :=
  PyVal.obj [(("status"), PyVal.str ("OK")),
    (("routes"), PyVal.arr [PyVal.obj [(("legs"), PyVal.arr [leg])]])]

/-- A response leg carrying both a plain duration and a
duration_in_traffic value. -/
def googleLegWithTraffic (dv tv : PyVal) : PyVal :=
  PyVal.obj [(("duration"), PyVal.obj [(("value"), dv)]),
    (("duration_in_traffic"), PyVal.obj [(("value"), tv)])]

/-- A response leg carrying only a plain duration value. -/
def googleLegPlain (dv : PyVal) : PyVal :=
  PyVal.obj [(("duration"), PyVal.obj [(("value"), dv)])]

/-- Claim C7: for a fixed origin, destination and departure time, a
Google-style routing response whose leg contains a duration_in_traffic
field normalizes with traffic_data_included = true and the
traffic-adjusted value, while a leg carrying only the plain duration
field normalizes with the flag false and the plain value. -/
theorem google_route_traffic_flag (s e : Coordinates) (t : ℤ) (dv tv : PyVal) :
    GoogleMapsAdapter.get_route s e t
        (HttpOutcome.response 200 (googleRouteBody (googleLegWithTraffic dv tv)))
      = (Except.ok (some (RouteInfo.mk tv true)), 1)
    ∧ GoogleMapsAdapter.get_route s e t
        (HttpOutcome.response 200 (googleRouteBody (googleLegPlain dv)))
      = (Except.ok (some (RouteInfo.mk dv false)), 1) := ⟨rfl, rfl⟩

/-- The pacing delay the Geocode.co adapter sleeps after each request
(time.sleep(1.1) at src/api_adapters.py line 58), in seconds. -/
def geocodeCoPacingDelay : ℚ := 11 / 10

/-- Instant at which a get_coordinates call entered at callStart issues
its requests.get (immediately). -/
def geocodeCoRequestTime (callStart : ℚ) : ℚ := callStart

/-- Instant at which a get_coordinates call entered at callStart
returns, given the round-trip duration of the network call: when a
response arrives the adapter sleeps the pacing delay before going on
(the sleep at line 58 precedes all parsing); when requests.get raises,
the except clause skips the sleep. -/
def geocodeCoReturnTime (callStart netDelay : ℚ) (o : HttpOutcome) : ℚ :=
  match o with
  | HttpOutcome.transportError => callStart + netDelay
  | HttpOutcome.response _ _ => callStart + netDelay + geocodeCoPacingDelay

/-- Claim C8: whenever a Geocode.co geocode call receives a response
(in particular every successful call) and a later call starts only
after the first returned — the adapter blocks inside get_coordinates,
enforcing the wait itself — the two requests are issued at least one
second apart (in fact 1.1 seconds plus the network round-trip). -/
theorem geocodeco_rate_pacing (s1 d1 s2 : ℚ) (status : Nat) (body : PyVal)
    (hd : 0 ≤ d1)
    (hs : geocodeCoReturnTime s1 d1 (HttpOutcome.response status body) ≤ s2) :
    1 ≤ geocodeCoRequestTime s2 - geocodeCoRequestTime s1 := by
  unfold geocodeCoReturnTime geocodeCoPacingDelay at hs
  unfold geocodeCoRequestTime
  linarith

/-- Witness for C8: a first call at time 0 with an instantaneous
response, and a second call entered exactly when the first returns. -/
theorem geocodeco_rate_pacing_witness :
    1 ≤ geocodeCoRequestTime (11 / 10) - geocodeCoRequestTime 0 :=
  geocodeco_rate_pacing 0 0 (11 / 10) 200 PyVal.null (le_refl 0)
    (by norm_num [geocodeCoReturnTime, geocodeCoPacingDelay])

/-- Claim C9: the scanner geocodes each endpoint address exactly once
(home first, in source order, both attempted even when the first
fails); when either endpoint fails to geocode it returns the empty
scenario sequence without any route call; when both succeed, its route
call log over the whole fixed grid is, candidate by candidate, the
morning-leg call followed by the evening-leg call once the morning leg
succeeded — a failed route call only ends that candidate, every later
candidate of the grid is still processed, the scan never aborts. -/
theorem scanner_contract (geocode : String → Option Coordinates)
    (route : Coordinates → Coordinates → ℤ → Option RouteInfoNorm)
    (home work : String) (lunch : ℤ) :
    (commute_optimizer.analyze_commute_scenarios geocode route home work lunch).1
      = [home, work]
    ∧ ((geocode home = Option.none ∨ geocode work = Option.none) →
        commute_optimizer.analyze_commute_scenarios geocode route home work lunch
          = ([home, work], [], []))
    ∧ (∀ hc wc, geocode home = some hc → geocode work = some wc →
        (commute_optimizer.analyze_commute_scenarios geocode route home work lunch).2.1
          = commute_optimizer.scanCalls route hc wc lunch commute_optimizer.timeGrid) := by
  unfold commute_optimizer.analyze_commute_scenarios
  cases hh : geocode home with
  | none =>
    cases hw : geocode work with
    | none => exact ⟨rfl, fun _ => rfl, fun hc wc h1 _ => by simp at h1⟩
    | some wc => exact ⟨rfl, fun _ => rfl, fun hc wc h1 _ => by simp at h1⟩
  | some hc =>
    cases hw : geocode work with
    | none => exact ⟨rfl, fun _ => rfl, fun hc2 wc2 _ h2 => by simp at h2⟩
    | some wc =>
      refine ⟨rfl, fun h => ?_, fun hc2 wc2 h1 h2 => ?_⟩
      · rcases h with h | h <;> simp at h
      · obtain rfl : hc = hc2 := by injection h1
        obtain rfl : wc = wc2 := by injection h2
        simp [commute_optimizer.scanLoop_spec]

/-- Test double: home and work coordinates. -/
def coordsHome : Coordinates := Coordinates.mk (PyVal.num 1) (PyVal.num 2)

/-- Test double: work coordinates. -/
def coordsWork : Coordinates := Coordinates.mk (PyVal.num 3) (PyVal.num 4)

/-- Test double: a geocoder resolving exactly the two endpoint
addresses. -/
def geoDouble : String → Option Coordinates :=
  fun a =>
    if a = ("home") then some coordsHome
    else if a = ("work") then some coordsWork
    else Option.none

/-- Test double: a router failing the 6:30 morning leg (departure
23400) and the evening leg leaving work at 57600 (the evening of the
7:00 candidate), succeeding with 1800 seconds everywhere else. -/
def routeDouble : Coordinates → Coordinates → ℤ → Option RouteInfoNorm :=
  fun _ _ t =>
    if t = 23400 then Option.none
    else if t = 57600 then Option.none
    else some (RouteInfoNorm.mk 1800 true)

/-- Witness for C9 at the doubles: the geocode log, the empty result on
an unresolvable work address, and the per-candidate call log. -/
theorem scanner_contract_witness :
    (commute_optimizer.analyze_commute_scenarios geoDouble routeDouble
        ("home") ("work") 30).1 = [("home"), ("work")]
    ∧ commute_optimizer.analyze_commute_scenarios geoDouble routeDouble
        ("home") ("nowhere") 30 = ([("home"), ("nowhere")], [], [])
    ∧ (commute_optimizer.analyze_commute_scenarios geoDouble routeDouble
        ("home") ("work") 30).2.1
      = commute_optimizer.scanCalls routeDouble coordsHome coordsWork 30
          commute_optimizer.timeGrid :=
  ⟨(scanner_contract geoDouble routeDouble ("home") ("work") 30).1,
   (scanner_contract geoDouble routeDouble ("home") ("nowhere") 30).2.1
     (Or.inr rfl),
   (scanner_contract geoDouble routeDouble ("home") ("work") 30).2.2
     coordsHome coordsWork rfl rfl⟩

/-- A record the per-candidate contribution produces always totals the
sum of its two legs. -/
theorem candidateRecord_total
    (route : Coordinates → Coordinates → ℤ → Option RouteInfoNorm)
    (hc wc : Coordinates) (lunch t : ℤ) (s : commute_optimizer.Scenario)
    (h : commute_optimizer.candidateRecord route hc wc lunch t = some s) :
    s.total_commute_sec = s.morning_travel_sec + s.evening_travel_sec := by
  unfold commute_optimizer.candidateRecord at h
  split at h
  · simp at h
  · dsimp only at h
    split at h
    · simp at h
    · obtain rfl : _ = s := by injection h
      rfl

/-- Claim C10: once both endpoints geocode, the scenario list is the
filterMap over the fixed grid of the per-candidate record: a candidate
contributes either one complete record — whose total_commute_sec equals
morning plus evening travel seconds — or nothing at all, so when the
evening leg fails after a successful morning leg the morning result is
discarded and no record of that candidate appears. -/
theorem scenario_atomicity (geocode : String → Option Coordinates)
    (route : Coordinates → Coordinates → ℤ → Option RouteInfoNorm)
    (home work : String) (lunch : ℤ) (hc wc : Coordinates)
    (hh : geocode home = some hc) (hw : geocode work = some wc) :
    (commute_optimizer.analyze_commute_scenarios geocode route home work lunch).2.2
      = commute_optimizer.timeGrid.filterMap
          (commute_optimizer.candidateRecord route hc wc lunch)
    ∧ ∀ s ∈ (commute_optimizer.analyze_commute_scenarios geocode route home work lunch).2.2,
        s.total_commute_sec = s.morning_travel_sec + s.evening_travel_sec := by
  have h2 : (commute_optimizer.analyze_commute_scenarios geocode route home work lunch).2.2
      = commute_optimizer.timeGrid.filterMap
          (commute_optimizer.candidateRecord route hc wc lunch) := by
    unfold commute_optimizer.analyze_commute_scenarios
    rw [hh, hw]
    simp [commute_optimizer.scanLoop_spec]
  refine ⟨h2, fun s hs => ?_⟩
  rw [h2] at hs
  rcases List.mem_filterMap.mp hs with ⟨t, _, hrec⟩
  exact candidateRecord_total route hc wc lunch t s hrec

/-- Witness for C10 at the doubles: the evening leg of the 7:00
candidate fails after its morning leg succeeded, and that candidate
leaves no record. -/
theorem scenario_atomicity_witness :
    (commute_optimizer.analyze_commute_scenarios geoDouble routeDouble
        ("home") ("work") 30).2.2
      = commute_optimizer.timeGrid.filterMap
          (commute_optimizer.candidateRecord routeDouble coordsHome coordsWork 30)
    ∧ ∀ s ∈ (commute_optimizer.analyze_commute_scenarios geoDouble routeDouble
        ("home") ("work") 30).2.2,
        s.total_commute_sec = s.morning_travel_sec + s.evening_travel_sec :=
  scenario_atomicity geoDouble routeDouble ("home") ("work") 30
    coordsHome coordsWork rfl rfl
